import Mathlib

/-!
Verification of the meta-tool registration and dispatch layer of the
portainer-mcp server (`internal/mcp/metatool_handler.go` and the static
catalog `metatool_registry.go`).

The Go code is shallowly embedded: handlers are abstract functions,
`context.Context` and Go `error` are abstract type parameters, the Go
`map[string]T` is an association list with overwrite-on-insert semantics,
and a registered tool is a record of the data passed to `AddTool`.
-/

namespace PortainerMCP

/-- A JSON-ish argument value, as found in `request.GetArguments()`
(`map[string]any` in Go).  Only the string case matters to the router;
the other constructors stand for the non-string dynamic values a caller
may send. -/
inductive ArgValue where
  | str (s : String)
  | num (n : Int)
  | boolean (b : Bool)
  | null
deriving DecidableEq, Repr

/-- Models the Go type assertion `v.(string)`. -/
def ArgValue.asString : ArgValue → Option String
  | .str s => some s
  | _ => none

/-- Lookup in a Go `map` modelled as an association list:
`v, ok := m[k]` gives `some v` when the key is bound, `none` otherwise. -/
def goMapLookup {α : Type} (m : List (String × α)) (k : String) : Option α :=
  (m.find? (fun p => p.1 = k)).map Prod.snd

/-- Assignment `m[k] = v` in a Go map: overwrite the existing binding,
or append a new one. -/
def goMapInsert {α : Type} (m : List (String × α)) (k : String) (v : α) :
    List (String × α) :=
  if m.any (fun p => p.1 = k) then
    m.map (fun p => if p.1 = k then (k, v) else p)
  else
    m ++ [(k, v)]

/-- The key set of a Go map (`for k := range m`).  Go iterates in an
unspecified order; claims about the keys are stated at the set level. -/
def goMapKeys {α : Type} (m : List (String × α)) : List String :=
  m.map Prod.fst

/-- Models `mcp.CallToolRequest`: the router only reads the argument bag. -/
structure CallToolRequest where
  arguments : List (String × ArgValue)
deriving DecidableEq, Repr

/-- Models `request.GetArguments()`. -/
def CallToolRequest.GetArguments (r : CallToolRequest) :
    List (String × ArgValue) :=
  r.arguments

/-- Models `mcp.CallToolResult`: a list of text contents plus the
`IsError` flag. -/
structure CallToolResult where
  content : List String
  isError : Bool
deriving DecidableEq, Repr

/-- Models `mcp.NewToolResultError(text)`: a result carrying the error
flag and a single text content. -/
def NewToolResultError (text : String) : CallToolResult :=
  { content := [text], isError := true }

/-- Models `server.ToolHandlerFunc = func(context.Context,
mcp.CallToolRequest) (*mcp.CallToolResult, error)`.  `C` stands for
`context.Context` and `E` for the Go `error` type; a nil result or nil
error is `none`. -/
def ToolHandlerFunc (C E : Type) : Type :=
  C → CallToolRequest → Option CallToolResult × Option E

/-- Models `mcp.ToolAnnotation` (Go field `annotation`); the `*bool`
hints are `Option Bool`. -/
structure ToolAnnot where
  title : String
  readOnlyHint : Option Bool
  destructiveHint : Option Bool
  idempotentHint : Option Bool
  openWorldHint : Option Bool
deriving DecidableEq, Repr

/-- Models the `PortainerMCPServer` struct: the `readOnly` flag is what
registration reads; everything else (API client, options, ...) is the
abstract payload `Srv`. -/
structure PortainerMCPServer (Srv : Type) where
  readOnly : Bool
  core : Srv

/-- Models `metaAction`: an action name, a handler factory (a Go method
value of type `func(*PortainerMCPServer) server.ToolHandlerFunc`), and
the read-only flag. -/
structure metaAction (Srv C E : Type) where
  name : String
  handler : PortainerMCPServer Srv → ToolHandlerFunc C E
  readOnly : Bool

/-- Models `metaToolDef` (Go field `annotation` is `annot` here). -/
structure metaToolDef (Srv C E : Type) where
  name : String
  description : String
  actions : List (metaAction Srv C E)
  annot : ToolAnnot

/-- The data `registerOneMetaTool` hands to `s.srv.AddTool`: the tool
(name, description, effective hints, and the single required "action"
parameter with its description and enum), together with the dispatch
table captured by the routing closure, and the routing closure itself. -/
structure RegisteredEntry (C E : Type) where
  toolName : String
  description : String
  annot : ToolAnnot
  paramDescription : String
  enum : List String
  table : List (String × ToolHandlerFunc C E)
  handler : ToolHandlerFunc C E

/-- Models `makeMetaHandler`: route on the "action" argument, replicating
the Go control flow (missing key, failed type assertion or empty string,
unknown action, then the bound sub-handler called with the original
context and request). -/
def makeMetaHandler {C E : Type} (metaToolName : String)
    (handlers : List (String × ToolHandlerFunc C E)) : ToolHandlerFunc C E :=
  fun ctx request =>
    match goMapLookup request.GetArguments "action" with
    | none => (some (NewToolResultError "missing required parameter: action"), none)
    | some actionRaw =>
      match actionRaw.asString with
      | none =>
        (some (NewToolResultError "parameter \x27action\x27 must be a non-empty string"), none)
      | some action =>
        if action = "" then
          (some (NewToolResultError "parameter \x27action\x27 must be a non-empty string"), none)
        else
          match goMapLookup handlers action with
          | none =>
            let available := goMapKeys handlers
            (some (NewToolResultError
              ("unknown action \x27" ++ action ++ "\x27 for tool \x27" ++ metaToolName
                ++ "\x27. Available actions: " ++ String.intercalate ", " available)), none)
          | some handler => handler ctx request

/-- The loop `for i, a := range available { handlers[a.name] = a.handler(s) }`. -/
def buildHandlers {Srv C E : Type} (s : PortainerMCPServer Srv)
    (available : List (metaAction Srv C E)) :
    List (String × ToolHandlerFunc C E) :=
  available.foldl (fun m a => goMapInsert m a.name (a.handler s)) []

/-- Models `registerOneMetaTool`: filter actions by read-only mode, skip
the group when nothing remains, compute the effective hints, build the
tool and its routing handler.  `none` means the group was not registered. -/
def registerOneMetaTool {Srv C E : Type} (s : PortainerMCPServer Srv)
    (d : metaToolDef Srv C E) : Option (RegisteredEntry C E) :=
  let available := d.actions.filter (fun a => !(s.readOnly && !a.readOnly))
  if available.isEmpty then
    none
  else
    let actionNames := available.map (fun a => a.name)
    let handlers := buildHandlers s available
    let allReadOnly := available.all (fun a => a.readOnly)
    let annot :=
      if allReadOnly then
        { d.annot with readOnlyHint := some true, destructiveHint := some false }
      else
        d.annot
    some
      { toolName := d.name
        description := d.description
        annot := annot
        paramDescription :=
          "The operation to perform. Available actions: "
            ++ String.intercalate ", " actionNames
        enum := actionNames
        table := handlers
        handler := makeMetaHandler d.name handlers }

/-- The loop body of `RegisterMetaTools` over an arbitrary definition
list: each definition that survives filtering contributes one registered
tool, in order. -/
def registerAll {Srv C E : Type} (s : PortainerMCPServer Srv)
    (defs : List (metaToolDef Srv C E)) : List (RegisteredEntry C E) :=
  defs.filterMap (registerOneMetaTool s)

/-- Models `metaToolDefinitions` from `metatool_registry.go`: the complete
static list of 15 meta-tool groups.  The Go handler method values
(`(*PortainerMCPServer).HandleGetEnvironments`, ...) are abstract: `hs`
maps each Go method name to the corresponding handler factory, so every
theorem about the catalog holds for every choice of handler bodies. -/
def metaToolDefinitions {Srv C E : Type}
    (hs : String → PortainerMCPServer Srv → ToolHandlerFunc C E) :
    List (metaToolDef Srv C E) :=
  [
    { name := "manage_environments"
      description := "Manage Portainer environments (endpoints), environment groups, and environment tags. Use the \x27action\x27 parameter to specify the operation."
      actions := [
        { name := "list_environments", handler := hs "HandleGetEnvironments", readOnly := true },
        { name := "get_environment", handler := hs "HandleGetEnvironment", readOnly := true },
        { name := "delete_environment", handler := hs "HandleDeleteEnvironment", readOnly := false },
        { name := "snapshot_environment", handler := hs "HandleSnapshotEnvironment", readOnly := false },
        { name := "snapshot_all_environments", handler := hs "HandleSnapshotAllEnvironments", readOnly := false },
        { name := "update_environment_tags", handler := hs "HandleUpdateEnvironmentTags", readOnly := false },
        { name := "update_environment_user_accesses", handler := hs "HandleUpdateEnvironmentUserAccesses", readOnly := false },
        { name := "update_environment_team_accesses", handler := hs "HandleUpdateEnvironmentTeamAccesses", readOnly := false },
        { name := "list_environment_groups", handler := hs "HandleGetEnvironmentGroups", readOnly := true },
        { name := "create_environment_group", handler := hs "HandleCreateEnvironmentGroup", readOnly := false },
        { name := "update_environment_group_name", handler := hs "HandleUpdateEnvironmentGroupName", readOnly := false },
        { name := "update_environment_group_environments", handler := hs "HandleUpdateEnvironmentGroupEnvironments", readOnly := false },
        { name := "update_environment_group_tags", handler := hs "HandleUpdateEnvironmentGroupTags", readOnly := false },
        { name := "list_environment_tags", handler := hs "HandleGetEnvironmentTags", readOnly := true },
        { name := "create_environment_tag", handler := hs "HandleCreateEnvironmentTag", readOnly := false },
        { name := "delete_environment_tag", handler := hs "HandleDeleteEnvironmentTag", readOnly := false }]
      annot := { title := "Manage Environments", readOnlyHint := some false, destructiveHint := some true, idempotentHint := some false, openWorldHint := some false } },
    { name := "manage_stacks"
      description := "Manage Portainer stacks (Docker Compose and Edge stacks). Use the \x27action\x27 parameter to specify the operation."
      actions := [
        { name := "list_stacks", handler := hs "HandleGetStacks", readOnly := true },
        { name := "list_regular_stacks", handler := hs "HandleListRegularStacks", readOnly := true },
        { name := "get_stack", handler := hs "HandleInspectStack", readOnly := true },
        { name := "get_stack_file", handler := hs "HandleGetStackFile", readOnly := true },
        { name := "inspect_stack_file", handler := hs "HandleInspectStackFile", readOnly := true },
        { name := "create_stack", handler := hs "HandleCreateStack", readOnly := false },
        { name := "update_stack", handler := hs "HandleUpdateStack", readOnly := false },
        { name := "delete_stack", handler := hs "HandleDeleteStack", readOnly := false },
        { name := "update_stack_git", handler := hs "HandleUpdateStackGit", readOnly := false },
        { name := "redeploy_stack_git", handler := hs "HandleRedeployStackGit", readOnly := false },
        { name := "start_stack", handler := hs "HandleStartStack", readOnly := false },
        { name := "stop_stack", handler := hs "HandleStopStack", readOnly := false },
        { name := "migrate_stack", handler := hs "HandleMigrateStack", readOnly := false }]
      annot := { title := "Manage Stacks", readOnlyHint := some false, destructiveHint := some true, idempotentHint := some false, openWorldHint := some false } },
    { name := "manage_access_groups"
      description := "Manage Portainer access groups and their user/team access policies. Use the \x27action\x27 parameter to specify the operation."
      actions := [
        { name := "list_access_groups", handler := hs "HandleGetAccessGroups", readOnly := true },
        { name := "create_access_group", handler := hs "HandleCreateAccessGroup", readOnly := false },
        { name := "update_access_group_name", handler := hs "HandleUpdateAccessGroupName", readOnly := false },
        { name := "update_access_group_user_accesses", handler := hs "HandleUpdateAccessGroupUserAccesses", readOnly := false },
        { name := "update_access_group_team_accesses", handler := hs "HandleUpdateAccessGroupTeamAccesses", readOnly := false },
        { name := "add_environment_to_access_group", handler := hs "HandleAddEnvironmentToAccessGroup", readOnly := false },
        { name := "remove_environment_from_access_group", handler := hs "HandleRemoveEnvironmentFromAccessGroup", readOnly := false }]
      annot := { title := "Manage Access Groups", readOnlyHint := some false, destructiveHint := some true, idempotentHint := some false, openWorldHint := some false } },
    { name := "manage_users"
      description := "Manage Portainer users. Use the \x27action\x27 parameter to specify the operation."
      actions := [
        { name := "list_users", handler := hs "HandleGetUsers", readOnly := true },
        { name := "get_user", handler := hs "HandleGetUser", readOnly := true },
        { name := "create_user", handler := hs "HandleCreateUser", readOnly := false },
        { name := "delete_user", handler := hs "HandleDeleteUser", readOnly := false },
        { name := "update_user_role", handler := hs "HandleUpdateUserRole", readOnly := false }]
      annot := { title := "Manage Users", readOnlyHint := some false, destructiveHint := some true, idempotentHint := some false, openWorldHint := some false } },
    { name := "manage_teams"
      description := "Manage Portainer teams and team membership. Use the \x27action\x27 parameter to specify the operation."
      actions := [
        { name := "list_teams", handler := hs "HandleGetTeams", readOnly := true },
        { name := "get_team", handler := hs "HandleGetTeam", readOnly := true },
        { name := "create_team", handler := hs "HandleCreateTeam", readOnly := false },
        { name := "delete_team", handler := hs "HandleDeleteTeam", readOnly := false },
        { name := "update_team_name", handler := hs "HandleUpdateTeamName", readOnly := false },
        { name := "update_team_members", handler := hs "HandleUpdateTeamMembers", readOnly := false }]
      annot := { title := "Manage Teams", readOnlyHint := some false, destructiveHint := some true, idempotentHint := some false, openWorldHint := some false } },
    { name := "manage_docker"
      description := "Interact with Docker environments via proxy API calls and dashboards. Use the \x27action\x27 parameter to specify the operation."
      actions := [
        { name := "get_docker_dashboard", handler := hs "HandleGetDockerDashboard", readOnly := true },
        { name := "docker_proxy", handler := hs "HandleDockerProxy", readOnly := false }]
      annot := { title := "Manage Docker", readOnlyHint := some false, destructiveHint := some true, idempotentHint := some false, openWorldHint := some true } },
    { name := "manage_kubernetes"
      description := "Interact with Kubernetes environments via proxy API calls, dashboards, namespaces, and kubeconfig. Use the \x27action\x27 parameter to specify the operation."
      actions := [
        { name := "get_kubernetes_resource_stripped", handler := hs "HandleKubernetesProxyStripped", readOnly := true },
        { name := "get_kubernetes_dashboard", handler := hs "HandleGetKubernetesDashboard", readOnly := true },
        { name := "list_kubernetes_namespaces", handler := hs "HandleListKubernetesNamespaces", readOnly := true },
        { name := "get_kubernetes_config", handler := hs "HandleGetKubernetesConfig", readOnly := true },
        { name := "kubernetes_proxy", handler := hs "HandleKubernetesProxy", readOnly := false }]
      annot := { title := "Manage Kubernetes", readOnlyHint := some false, destructiveHint := some true, idempotentHint := some false, openWorldHint := some true } },
    { name := "manage_helm"
      description := "Manage Helm repositories, charts, and releases. Use the \x27action\x27 parameter to specify the operation."
      actions := [
        { name := "list_helm_repositories", handler := hs "HandleListHelmRepositories", readOnly := true },
        { name := "search_helm_charts", handler := hs "HandleSearchHelmCharts", readOnly := true },
        { name := "list_helm_releases", handler := hs "HandleListHelmReleases", readOnly := true },
        { name := "get_helm_release_history", handler := hs "HandleGetHelmReleaseHistory", readOnly := true },
        { name := "add_helm_repository", handler := hs "HandleAddHelmRepository", readOnly := false },
        { name := "remove_helm_repository", handler := hs "HandleRemoveHelmRepository", readOnly := false },
        { name := "install_helm_chart", handler := hs "HandleInstallHelmChart", readOnly := false },
        { name := "delete_helm_release", handler := hs "HandleDeleteHelmRelease", readOnly := false }]
      annot := { title := "Manage Helm", readOnlyHint := some false, destructiveHint := some true, idempotentHint := some false, openWorldHint := some false } },
    { name := "manage_registries"
      description := "Manage Docker registries (Quay, Azure, DockerHub, GitLab, ECR, custom). Use the \x27action\x27 parameter to specify the operation."
      actions := [
        { name := "list_registries", handler := hs "HandleListRegistries", readOnly := true },
        { name := "get_registry", handler := hs "HandleGetRegistry", readOnly := true },
        { name := "create_registry", handler := hs "HandleCreateRegistry", readOnly := false },
        { name := "update_registry", handler := hs "HandleUpdateRegistry", readOnly := false },
        { name := "delete_registry", handler := hs "HandleDeleteRegistry", readOnly := false }]
      annot := { title := "Manage Registries", readOnlyHint := some false, destructiveHint := some true, idempotentHint := some false, openWorldHint := some false } },
    { name := "manage_templates"
      description := "Manage custom templates and application templates. Use the \x27action\x27 parameter to specify the operation."
      actions := [
        { name := "list_custom_templates", handler := hs "HandleListCustomTemplates", readOnly := true },
        { name := "get_custom_template", handler := hs "HandleGetCustomTemplate", readOnly := true },
        { name := "get_custom_template_file", handler := hs "HandleGetCustomTemplateFile", readOnly := true },
        { name := "create_custom_template", handler := hs "HandleCreateCustomTemplate", readOnly := false },
        { name := "delete_custom_template", handler := hs "HandleDeleteCustomTemplate", readOnly := false },
        { name := "list_app_templates", handler := hs "HandleListAppTemplates", readOnly := true },
        { name := "get_app_template_file", handler := hs "HandleGetAppTemplateFile", readOnly := true }]
      annot := { title := "Manage Templates", readOnlyHint := some false, destructiveHint := some true, idempotentHint := some false, openWorldHint := some false } },
    { name := "manage_backups"
      description := "Manage Portainer server backups (local and S3). Use the \x27action\x27 parameter to specify the operation."
      actions := [
        { name := "get_backup_status", handler := hs "HandleGetBackupStatus", readOnly := true },
        { name := "get_backup_s3_settings", handler := hs "HandleGetBackupS3Settings", readOnly := true },
        { name := "create_backup", handler := hs "HandleCreateBackup", readOnly := false },
        { name := "backup_to_s3", handler := hs "HandleBackupToS3", readOnly := false },
        { name := "restore_from_s3", handler := hs "HandleRestoreFromS3", readOnly := false }]
      annot := { title := "Manage Backups", readOnlyHint := some false, destructiveHint := some true, idempotentHint := some false, openWorldHint := some false } },
    { name := "manage_webhooks"
      description := "Manage webhooks for services and containers. Use the \x27action\x27 parameter to specify the operation."
      actions := [
        { name := "list_webhooks", handler := hs "HandleListWebhooks", readOnly := true },
        { name := "create_webhook", handler := hs "HandleCreateWebhook", readOnly := false },
        { name := "delete_webhook", handler := hs "HandleDeleteWebhook", readOnly := false }]
      annot := { title := "Manage Webhooks", readOnlyHint := some false, destructiveHint := some true, idempotentHint := some false, openWorldHint := some false } },
    { name := "manage_edge"
      description := "Manage Edge jobs and Edge update schedules. Use the \x27action\x27 parameter to specify the operation."
      actions := [
        { name := "list_edge_jobs", handler := hs "HandleListEdgeJobs", readOnly := true },
        { name := "get_edge_job", handler := hs "HandleGetEdgeJob", readOnly := true },
        { name := "get_edge_job_file", handler := hs "HandleGetEdgeJobFile", readOnly := true },
        { name := "create_edge_job", handler := hs "HandleCreateEdgeJob", readOnly := false },
        { name := "delete_edge_job", handler := hs "HandleDeleteEdgeJob", readOnly := false },
        { name := "list_edge_update_schedules", handler := hs "HandleListEdgeUpdateSchedules", readOnly := true }]
      annot := { title := "Manage Edge", readOnlyHint := some false, destructiveHint := some true, idempotentHint := some false, openWorldHint := some false } },
    { name := "manage_settings"
      description := "Manage Portainer server settings, public settings, and SSL configuration. Use the \x27action\x27 parameter to specify the operation."
      actions := [
        { name := "get_settings", handler := hs "HandleGetSettings", readOnly := true },
        { name := "get_public_settings", handler := hs "HandleGetPublicSettings", readOnly := true },
        { name := "update_settings", handler := hs "HandleUpdateSettings", readOnly := false },
        { name := "get_ssl_settings", handler := hs "HandleGetSSLSettings", readOnly := true },
        { name := "update_ssl_settings", handler := hs "HandleUpdateSSLSettings", readOnly := false }]
      annot := { title := "Manage Settings", readOnlyHint := some false, destructiveHint := some false, idempotentHint := some true, openWorldHint := some false } },
    { name := "manage_system"
      description := "System information, roles, message of the day, and authentication. Use the \x27action\x27 parameter to specify the operation."
      actions := [
        { name := "get_system_status", handler := hs "HandleGetSystemStatus", readOnly := true },
        { name := "list_roles", handler := hs "HandleListRoles", readOnly := true },
        { name := "get_motd", handler := hs "HandleGetMOTD", readOnly := true },
        { name := "authenticate", handler := hs "HandleAuthenticateUser", readOnly := true },
        { name := "logout", handler := hs "HandleLogout", readOnly := false }]
      annot := { title := "Manage System", readOnlyHint := some false, destructiveHint := some false, idempotentHint := some false, openWorldHint := some false } },
  ]

/-- Models `RegisterMetaTools`: register every group of the static
catalog, in order. -/
def RegisterMetaTools {Srv C E : Type} (s : PortainerMCPServer Srv)
    (hs : String → PortainerMCPServer Srv → ToolHandlerFunc C E) :
    List (RegisteredEntry C E) :=
  registerAll s (metaToolDefinitions hs)

/-!  Helper definitions and lemmas shared by the claim theorems. -/

/-- Modelled from the spec's words: the subset of a group's declared
actions that survives mode `m`, namely the actions `a` with
`!m || a.readOnly`.  Used to compare the spec's filter against the code's. -/
def specFilteredActions {Srv C E : Type} (m : Bool) (d : metaToolDef Srv C E) :
    List (metaAction Srv C E) :=
  d.actions.filter (fun a => !m || a.readOnly)

theorem filter_mode_eq {Srv C E : Type} (m : Bool) (d : metaToolDef Srv C E) :
    d.actions.filter (fun a => !(m && !a.readOnly)) = specFilteredActions m d := by
  unfold specFilteredActions
  have hp : (fun a : metaAction Srv C E => !(m && !a.readOnly))
      = (fun a : metaAction Srv C E => !m || a.readOnly) := by
    funext a
    cases m <;> cases a.readOnly <;> rfl
  rw [hp]

/-- Unfolding of a successful registration: the registered entry is
exactly the record `registerOneMetaTool` builds. -/
theorem register_some_fields {Srv C E : Type} {s : PortainerMCPServer Srv}
    {d : metaToolDef Srv C E} {e : RegisteredEntry C E}
    (h : registerOneMetaTool s d = some e) :
    e = { toolName := d.name
          description := d.description
          annot :=
            if (d.actions.filter (fun a => !(s.readOnly && !a.readOnly))).all
                (fun a => a.readOnly) then
              { d.annot with readOnlyHint := some true, destructiveHint := some false }
            else
              d.annot
          paramDescription :=
            "The operation to perform. Available actions: "
              ++ String.intercalate ", "
                ((d.actions.filter (fun a => !(s.readOnly && !a.readOnly))).map
                  (fun a => a.name))
          enum := (d.actions.filter (fun a => !(s.readOnly && !a.readOnly))).map
            (fun a => a.name)
          table := buildHandlers s (d.actions.filter (fun a => !(s.readOnly && !a.readOnly)))
          handler := makeMetaHandler d.name
            (buildHandlers s (d.actions.filter (fun a => !(s.readOnly && !a.readOnly)))) } := by
  simp only [registerOneMetaTool] at h
  split at h
  · exact Option.noConfusion h
  · exact (Option.some.inj h).symm

theorem register_none_iff {Srv C E : Type} (s : PortainerMCPServer Srv)
    (d : metaToolDef Srv C E) :
    registerOneMetaTool s d = none
      ↔ d.actions.filter (fun a => !(s.readOnly && !a.readOnly)) = [] := by
  simp only [registerOneMetaTool]
  split
  next hemp => simpa [List.isEmpty_iff] using hemp
  next hemp => simp [List.isEmpty_iff] at hemp; simp [hemp]

theorem mem_goMapKeys_goMapInsert {α : Type} (m : List (String × α))
    (k : String) (v : α) (n : String) :
    n ∈ goMapKeys (goMapInsert m k v) ↔ n = k ∨ n ∈ goMapKeys m := by
  unfold goMapInsert goMapKeys
  split
  next hany =>
    rw [List.map_map]
    have hkeys : m.map (Prod.fst ∘ fun p => if p.1 = k then (k, v) else p)
        = m.map Prod.fst := by
      apply List.map_congr_left
      intro p _
      by_cases hp : p.1 = k
      · simp [hp]
      · simp [hp]
    rw [hkeys]
    have hk : k ∈ m.map Prod.fst := by
      simp only [List.any_eq_true, decide_eq_true_eq] at hany
      obtain ⟨p, hpm, hpk⟩ := hany
      exact hpk ▸ List.mem_map_of_mem Prod.fst hpm
    constructor
    · exact Or.inr
    · rintro (rfl | hn)
      · exact hk
      · exact hn
  next =>
    simp [List.mem_append, or_comm]

theorem mem_goMapKeys_buildHandlers {Srv C E : Type} (s : PortainerMCPServer Srv)
    (l : List (metaAction Srv C E)) (n : String) :
    n ∈ goMapKeys (buildHandlers s l)
      ↔ n ∈ l.map (fun a => a.name) := by
  suffices h : ∀ (m0 : List (String × ToolHandlerFunc C E)),
      n ∈ goMapKeys (l.foldl (fun m a => goMapInsert m a.name (a.handler s)) m0)
        ↔ n ∈ goMapKeys m0 ∨ n ∈ l.map (fun a => a.name) by
    have := h []
    simpa [buildHandlers, goMapKeys] using this
  induction l with
  | nil => intro m0; simp
  | cons a l ih =>
    intro m0
    rw [List.foldl_cons, ih, mem_goMapKeys_goMapInsert]
    simp only [List.map_cons, List.mem_cons]
    tauto

theorem goMapLookup_eq_none_iff {α : Type} (m : List (String × α)) (k : String) :
    goMapLookup m k = none ↔ k ∉ goMapKeys m := by
  unfold goMapLookup goMapKeys
  rw [Option.map_eq_none', List.find?_eq_none]
  simp only [decide_eq_true_eq, List.mem_map]
  constructor
  · rintro h ⟨p, hpm, rfl⟩
    exact h p hpm rfl
  · rintro h p hpm rfl
    exact h ⟨p, hpm, rfl⟩

theorem goMapLookup_isSome_mem {α : Type} {m : List (String × α)} {k : String}
    {v : α} (h : goMapLookup m k = some v) : k ∈ goMapKeys m := by
  by_contra hk
  rw [← goMapLookup_eq_none_iff] at hk
  rw [h] at hk
  exact Option.noConfusion hk

/-- Every action name in the static catalog is non-empty, for every
choice of handler bodies.  Dispatch on the empty string therefore never
reaches a registered handler. -/
theorem catalog_action_names_nonempty {Srv C E : Type}
    (hs : String → PortainerMCPServer Srv → ToolHandlerFunc C E) :
    ((metaToolDefinitions hs).all
      (fun d => d.actions.all (fun a => !(a.name == "")))) = true := rfl

/-!  Concrete fixtures used by the witness theorems. -/

def wHandlerA : PortainerMCPServer Unit → ToolHandlerFunc Unit Unit :=
  fun _ => fun _ _ => (some { content := ["A"], isError := false }, none)

def wHandlerB : PortainerMCPServer Unit → ToolHandlerFunc Unit Unit :=
  fun _ => fun _ _ => (some { content := ["B"], isError := false }, none)

/-- A two-action demo group: one read-only action, one write action. -/
def wGroup : metaToolDef Unit Unit Unit :=
  { name := "demo_tool"
    description := "demo group"
    actions :=
      [{ name := "get_item", handler := wHandlerA, readOnly := true },
       { name := "set_item", handler := wHandlerB, readOnly := false }]
    annot :=
      { title := "Demo", readOnlyHint := some false, destructiveHint := some true
        idempotentHint := some false, openWorldHint := some false } }

/-- A server in read-only mode. -/
def wServerRO : PortainerMCPServer Unit := { readOnly := true, core := () }

def wDefaultEntry : RegisteredEntry Unit Unit :=
  { toolName := "", description := ""
    annot :=
      { title := "", readOnlyHint := none, destructiveHint := none
        idempotentHint := none, openWorldHint := none }
    paramDescription := "", enum := [], table := []
    handler := fun _ _ => (none, none) }

/-- The entry registered for `wGroup` on the read-only server. -/
def wEntry : RegisteredEntry Unit Unit :=
  (registerOneMetaTool wServerRO wGroup).getD wDefaultEntry

/-- C1: for every group and every read-only mode, the action enum of the
registered entry holds exactly the declared actions `a` with
`!readOnlyMode || a.readOnly`; when that filtered set is empty the group
produces no registered entry at all. -/
theorem register_enum_is_filtered_action_set {Srv C E : Type}
    (s : PortainerMCPServer Srv) (d : metaToolDef Srv C E) :
    (registerOneMetaTool s d = none ↔ specFilteredActions s.readOnly d = [])
    ∧ ∀ e, registerOneMetaTool s d = some e →
        ∀ n, n ∈ e.enum
          ↔ n ∈ (specFilteredActions s.readOnly d).map (fun a => a.name) := by
  constructor
  · rw [register_none_iff, filter_mode_eq]
  · intro e he n
    obtain rfl := register_some_fields he
    dsimp only
    rw [filter_mode_eq]

theorem register_enum_is_filtered_action_set_witness :
    "get_item" ∈ wEntry.enum
      ↔ "get_item" ∈ (specFilteredActions wServerRO.readOnly wGroup).map
          (fun a => a.name) :=
  (register_enum_is_filtered_action_set wServerRO wGroup).2 wEntry rfl "get_item"

/-- C2: if every action remaining after filtering is read-only, the
registered entry's hints are forced to read-only = true and
destructive = false; otherwise the group's declared hints are used
unchanged. -/
theorem register_annot_forced_when_all_readonly {Srv C E : Type}
    (s : PortainerMCPServer Srv) (d : metaToolDef Srv C E)
    (e : RegisteredEntry C E) (he : registerOneMetaTool s d = some e) :
    ((specFilteredActions s.readOnly d).all (fun a => a.readOnly) = true →
        e.annot = { d.annot with readOnlyHint := some true, destructiveHint := some false })
    ∧ ((specFilteredActions s.readOnly d).all (fun a => a.readOnly) = false →
        e.annot = d.annot) := by
  obtain rfl := register_some_fields he
  dsimp only
  rw [filter_mode_eq]
  constructor
  · intro h
    simp [h]
  · intro h
    simp [h]

theorem register_annot_forced_when_all_readonly_witness :
    wEntry.annot
      = { wGroup.annot with readOnlyHint := some true, destructiveHint := some false } :=
  (register_annot_forced_when_all_readonly wServerRO wGroup wEntry rfl).1 rfl

/-- C8: the enum of a registered entry is exactly the declared action
sequence with the excluded actions removed (relative order preserved),
and the parameter description lists the same sequence. -/
theorem register_enum_preserves_order {Srv C E : Type}
    (s : PortainerMCPServer Srv) (d : metaToolDef Srv C E)
    (e : RegisteredEntry C E) (he : registerOneMetaTool s d = some e) :
    e.enum = (specFilteredActions s.readOnly d).map (fun a => a.name)
    ∧ e.paramDescription
        = "The operation to perform. Available actions: "
            ++ String.intercalate ", " e.enum := by
  obtain rfl := register_some_fields he
  dsimp only
  rw [filter_mode_eq]
  exact ⟨rfl, rfl⟩

theorem register_enum_preserves_order_witness :
    wEntry.enum = (specFilteredActions wServerRO.readOnly wGroup).map (fun a => a.name)
    ∧ wEntry.paramDescription
        = "The operation to perform. Available actions: "
            ++ String.intercalate ", " wEntry.enum :=
  register_enum_preserves_order wServerRO wGroup wEntry rfl

/-- C9: when the all-read-only rule forces the hints, only the read-only
and destructive hints are overridden; the title, idempotent hint and
open-world hint of the declared hints are carried over unchanged. -/
theorem register_forced_annot_frame {Srv C E : Type}
    (s : PortainerMCPServer Srv) (d : metaToolDef Srv C E)
    (e : RegisteredEntry C E) (he : registerOneMetaTool s d = some e)
    (hall : (specFilteredActions s.readOnly d).all (fun a => a.readOnly) = true) :
    e.annot.title = d.annot.title
    ∧ e.annot.idempotentHint = d.annot.idempotentHint
    ∧ e.annot.openWorldHint = d.annot.openWorldHint
    ∧ e.annot.readOnlyHint = some true
    ∧ e.annot.destructiveHint = some false := by
  obtain rfl := register_some_fields he
  dsimp only
  rw [filter_mode_eq, hall]
  simp

theorem register_forced_annot_frame_witness :
    wEntry.annot.title = wGroup.annot.title
    ∧ wEntry.annot.idempotentHint = wGroup.annot.idempotentHint
    ∧ wEntry.annot.openWorldHint = wGroup.annot.openWorldHint
    ∧ wEntry.annot.readOnlyHint = some true
    ∧ wEntry.annot.destructiveHint = some false :=
  register_forced_annot_frame wServerRO wGroup wEntry rfl rfl

/-!  Dispatch fixtures. -/

/-- Abstract handler factories for the catalog, one per Go method name,
distinguishable by their output. -/
def wHs : String → PortainerMCPServer Unit → ToolHandlerFunc Unit Unit :=
  fun nm _ => fun _ _ => (some { content := [nm], isError := false }, none)

/-- The first entry registered by `RegisterMetaTools` on the read-only
server (the `manage_environments` meta-tool). -/
def wCatEntry : RegisteredEntry Unit Unit :=
  (RegisterMetaTools wServerRO wHs).getD 0 wDefaultEntry

def wReqList : CallToolRequest :=
  { arguments := [("action", ArgValue.str "list_environments")] }

def wReqEmpty : CallToolRequest := { arguments := [] }

def wReqSet : CallToolRequest :=
  { arguments := [("action", ArgValue.str "set_item")] }

/-- C3: calling a registered entry with an "action" string bound in its
dispatch table invokes exactly the handler bound to that string, passing
the caller's context and the full original request, and returns that
handler's result and error pair verbatim. -/
theorem dispatch_known_action_invokes_handler {Srv C E : Type}
    (s : PortainerMCPServer Srv)
    (hs : String → PortainerMCPServer Srv → ToolHandlerFunc C E)
    (e : RegisteredEntry C E) (he : e ∈ RegisterMetaTools s hs)
    (X : String) (h : ToolHandlerFunc C E)
    (hlook : goMapLookup e.table X = some h)
    (ctx : C) (req : CallToolRequest)
    (hreq : goMapLookup req.GetArguments "action" = some (ArgValue.str X)) :
    e.handler ctx req = h ctx req := by
  rw [RegisterMetaTools, registerAll] at he
  obtain ⟨d, hd, hreg⟩ := List.mem_filterMap.mp he
  have hfields := register_some_fields hreg
  have htab : e.table
      = buildHandlers s (d.actions.filter (fun a => !(s.readOnly && !a.readOnly))) := by
    rw [hfields]
  have hXkeys : X ∈ goMapKeys e.table := goMapLookup_isSome_mem hlook
  have hXnames :
      X ∈ (d.actions.filter (fun a => !(s.readOnly && !a.readOnly))).map
        (fun a => a.name) := by
    rw [htab] at hXkeys
    exact (mem_goMapKeys_buildHandlers s _ X).mp hXkeys
  have hXne : X ≠ "" := by
    obtain ⟨a, ha, rfl⟩ := List.mem_map.mp hXnames
    have ha2 : a ∈ d.actions := List.mem_of_mem_filter ha
    have hcat := catalog_action_names_nonempty hs
    rw [List.all_eq_true] at hcat
    have hd2 := hcat d hd
    rw [List.all_eq_true] at hd2
    have := hd2 a ha2
    simpa using this
  have hhandler : e.handler = makeMetaHandler d.name e.table := by
    rw [hfields]
  rw [hhandler]
  simp [makeMetaHandler, hreq, ArgValue.asString, hXne, hlook]

theorem dispatch_known_action_invokes_handler_witness :
    wCatEntry.handler () wReqList
      = wHs "HandleGetEnvironments" wServerRO () wReqList := by
  have hmem : wCatEntry ∈ RegisterMetaTools wServerRO wHs := by
    have h : RegisterMetaTools wServerRO wHs
        = wCatEntry :: (RegisterMetaTools wServerRO wHs).tail := rfl
    rw [h]
    exact List.mem_cons_self _ _
  exact dispatch_known_action_invokes_handler wServerRO wHs wCatEntry hmem
    "list_environments" (wHs "HandleGetEnvironments" wServerRO) rfl () wReqList rfl

/-- C4: a call whose "action" value is missing, not a string, the empty
string, or absent from the dispatch table invokes no handler: the router
returns a result carrying the error flag, paired with a nil Go error. -/
theorem dispatch_invalid_action_returns_error {Srv C E : Type}
    (s : PortainerMCPServer Srv) (d : metaToolDef Srv C E)
    (e : RegisteredEntry C E) (he : registerOneMetaTool s d = some e)
    (ctx : C) (req : CallToolRequest)
    (hbad :
      goMapLookup req.GetArguments "action" = none
      ∨ (∃ v, goMapLookup req.GetArguments "action" = some v ∧ v.asString = none)
      ∨ goMapLookup req.GetArguments "action" = some (ArgValue.str "")
      ∨ (∃ X, goMapLookup req.GetArguments "action" = some (ArgValue.str X)
            ∧ goMapLookup e.table X = none)) :
    ∃ msg, e.handler ctx req = (some (NewToolResultError msg), none)
      ∧ (NewToolResultError msg).isError = true := by
  have hhandler : e.handler = makeMetaHandler d.name e.table := by
    rw [register_some_fields he]
  rw [hhandler]
  rcases hbad with hm | ⟨v, hv, hvs⟩ | hes | ⟨X, hX, hlook⟩
  · exact ⟨"missing required parameter: action", by simp [makeMetaHandler, hm], rfl⟩
  · refine ⟨"parameter \x27action\x27 must be a non-empty string", ?_, rfl⟩
    cases v with
    | str t => simp [ArgValue.asString] at hvs
    | num n => simp [makeMetaHandler, hv, ArgValue.asString]
    | boolean b => simp [makeMetaHandler, hv, ArgValue.asString]
    | null => simp [makeMetaHandler, hv, ArgValue.asString]
  · exact ⟨"parameter \x27action\x27 must be a non-empty string",
      by simp [makeMetaHandler, hes, ArgValue.asString], rfl⟩
  · by_cases hXe : X = ""
    · subst hXe
      exact ⟨"parameter \x27action\x27 must be a non-empty string",
        by simp [makeMetaHandler, hX, ArgValue.asString], rfl⟩
    · refine ⟨"unknown action \x27" ++ X ++ "\x27 for tool \x27" ++ d.name
        ++ "\x27. Available actions: " ++ String.intercalate ", " (goMapKeys e.table),
        ?_, rfl⟩
      simp [makeMetaHandler, hX, ArgValue.asString, hXe, hlook]

theorem dispatch_invalid_action_returns_error_witness :
    ∃ msg, wEntry.handler () wReqEmpty = (some (NewToolResultError msg), none)
      ∧ (NewToolResultError msg).isError = true :=
  dispatch_invalid_action_returns_error wServerRO wGroup wEntry rfl () wReqEmpty
    (Or.inl rfl)

/-- C5: for a non-empty "action" string not bound in the dispatch table,
the unknown-action error message enumerates exactly the key set of the
table, and that key set is exactly the mode-filtered action name set of
the group (never a filtered-out name of the unfiltered catalog). -/
theorem dispatch_unknown_action_lists_filtered {Srv C E : Type}
    (s : PortainerMCPServer Srv) (d : metaToolDef Srv C E)
    (e : RegisteredEntry C E) (he : registerOneMetaTool s d = some e)
    (X : String) (hXne : X ≠ "") (hlook : goMapLookup e.table X = none)
    (ctx : C) (req : CallToolRequest)
    (hreq : goMapLookup req.GetArguments "action" = some (ArgValue.str X)) :
    e.handler ctx req
      = (some (NewToolResultError
          ("unknown action \x27" ++ X ++ "\x27 for tool \x27" ++ e.toolName
            ++ "\x27. Available actions: "
            ++ String.intercalate ", " (goMapKeys e.table))), none)
    ∧ (∀ n, n ∈ goMapKeys e.table
          ↔ n ∈ (specFilteredActions s.readOnly d).map (fun a => a.name)) := by
  have hfields := register_some_fields he
  have htab : e.table
      = buildHandlers s (d.actions.filter (fun a => !(s.readOnly && !a.readOnly))) := by
    rw [hfields]
  constructor
  · have hhandler : e.handler = makeMetaHandler e.toolName e.table := by
      rw [hfields]
    rw [hhandler]
    simp [makeMetaHandler, hreq, ArgValue.asString, hXne, hlook]
  · intro n
    rw [htab, mem_goMapKeys_buildHandlers, filter_mode_eq]

theorem dispatch_unknown_action_lists_filtered_witness :
    (wEntry.handler () wReqSet
      = (some (NewToolResultError
          ("unknown action \x27" ++ "set_item" ++ "\x27 for tool \x27" ++ wEntry.toolName
            ++ "\x27. Available actions: "
            ++ String.intercalate ", " (goMapKeys wEntry.table))), none))
    ∧ (∀ n, n ∈ goMapKeys wEntry.table
          ↔ n ∈ (specFilteredActions wServerRO.readOnly wGroup).map (fun a => a.name)) :=
  dispatch_unknown_action_lists_filtered wServerRO wGroup wEntry rfl
    "set_item" (by decide) rfl () wReqSet rfl

/-- C6: in the full static catalog, no two actions across all groups
share a name, and no two groups share a name, for every choice of
handler bodies. -/
theorem catalog_names_globally_unique {Srv C E : Type}
    (hs : String → PortainerMCPServer Srv → ToolHandlerFunc C E) :
    ((metaToolDefinitions hs).flatMap (fun d => d.actions.map (fun a => a.name))).Nodup
    ∧ ((metaToolDefinitions hs).map (fun d => d.name)).Nodup := by
  have ha : (metaToolDefinitions hs).flatMap (fun d => d.actions.map (fun a => a.name))
      = ["list_environments",
      "get_environment",
      "delete_environment",
      "snapshot_environment",
      "snapshot_all_environments",
      "update_environment_tags",
      "update_environment_user_accesses",
      "update_environment_team_accesses",
      "list_environment_groups",
      "create_environment_group",
      "update_environment_group_name",
      "update_environment_group_environments",
      "update_environment_group_tags",
      "list_environment_tags",
      "create_environment_tag",
      "delete_environment_tag",
      "list_stacks",
      "list_regular_stacks",
      "get_stack",
      "get_stack_file",
      "inspect_stack_file",
      "create_stack",
      "update_stack",
      "delete_stack",
      "update_stack_git",
      "redeploy_stack_git",
      "start_stack",
      "stop_stack",
      "migrate_stack",
      "list_access_groups",
      "create_access_group",
      "update_access_group_name",
      "update_access_group_user_accesses",
      "update_access_group_team_accesses",
      "add_environment_to_access_group",
      "remove_environment_from_access_group",
      "list_users",
      "get_user",
      "create_user",
      "delete_user",
      "update_user_role",
      "list_teams",
      "get_team",
      "create_team",
      "delete_team",
      "update_team_name",
      "update_team_members",
      "get_docker_dashboard",
      "docker_proxy",
      "get_kubernetes_resource_stripped",
      "get_kubernetes_dashboard",
      "list_kubernetes_namespaces",
      "get_kubernetes_config",
      "kubernetes_proxy",
      "list_helm_repositories",
      "search_helm_charts",
      "list_helm_releases",
      "get_helm_release_history",
      "add_helm_repository",
      "remove_helm_repository",
      "install_helm_chart",
      "delete_helm_release",
      "list_registries",
      "get_registry",
      "create_registry",
      "update_registry",
      "delete_registry",
      "list_custom_templates",
      "get_custom_template",
      "get_custom_template_file",
      "create_custom_template",
      "delete_custom_template",
      "list_app_templates",
      "get_app_template_file",
      "get_backup_status",
      "get_backup_s3_settings",
      "create_backup",
      "backup_to_s3",
      "restore_from_s3",
      "list_webhooks",
      "create_webhook",
      "delete_webhook",
      "list_edge_jobs",
      "get_edge_job",
      "get_edge_job_file",
      "create_edge_job",
      "delete_edge_job",
      "list_edge_update_schedules",
      "get_settings",
      "get_public_settings",
      "update_settings",
      "get_ssl_settings",
      "update_ssl_settings",
      "get_system_status",
      "list_roles",
      "get_motd",
      "authenticate",
      "logout"] := rfl
  have hg : (metaToolDefinitions hs).map (fun d => d.name)
      = ["manage_environments",
      "manage_stacks",
      "manage_access_groups",
      "manage_users",
      "manage_teams",
      "manage_docker",
      "manage_kubernetes",
      "manage_helm",
      "manage_registries",
      "manage_templates",
      "manage_backups",
      "manage_webhooks",
      "manage_edge",
      "manage_settings",
      "manage_system"] := rfl
  rw [ha, hg]
  exact ⟨by decide, by decide⟩

/-- C7 counterexample: registration performs no duplicate-name check.  A
catalog consisting of the same group twice (duplicate group name and
duplicate action name) is registered in full: registration completes and
the registered list carries the duplicated name twice, so it is false
that registration never completes with a duplicate present. -/
def dupGroup : metaToolDef Unit Unit Unit :=
  { name := "dup_tool"
    description := "duplicated group"
    actions := [{ name := "ping", handler := wHandlerA, readOnly := true }]
    annot :=
      { title := "Dup", readOnlyHint := some true, destructiveHint := some false
        idempotentHint := some true, openWorldHint := some false } }

theorem register_duplicate_completes_counterexample :
    (registerAll { readOnly := false, core := () } [dupGroup, dupGroup]).map
      (fun e => e.toolName) = ["dup_tool", "dup_tool"] := rfl

/-- C7 amended: registration contains no uniqueness assertion and no
abort path: for every server mode and every definition list — duplicate
names included — registration completes, producing exactly one entry,
named after its group, for each group whose filtered action set is
non-empty. -/
theorem register_never_aborts {Srv C E : Type} (s : PortainerMCPServer Srv)
    (defs : List (metaToolDef Srv C E)) :
    (registerAll s defs).map (fun e => e.toolName)
      = (defs.filter
          (fun d => !(d.actions.filter (fun a => !(s.readOnly && !a.readOnly))).isEmpty)).map
        (fun d => d.name) := by
  induction defs with
  | nil => rfl
  | cons d ds ih =>
    rw [registerAll] at ih ⊢
    rw [List.filterMap_cons, List.filter_cons]
    cases hreg : registerOneMetaTool s d with
    | none =>
      have hemp : d.actions.filter (fun a => !(s.readOnly && !a.readOnly)) = [] :=
        (register_none_iff s d).mp hreg
      rw [hemp]
      simpa using ih
    | some e =>
      have hne : d.actions.filter (fun a => !(s.readOnly && !a.readOnly)) ≠ [] := by
        intro hemp
        rw [← register_none_iff s d] at hemp
        rw [hreg] at hemp
        exact Option.noConfusion hemp
      have hname : e.toolName = d.name := by
        rw [register_some_fields hreg]
      have hpos : (!(d.actions.filter (fun a => !(s.readOnly && !a.readOnly))).isEmpty) = true := by
        cases hl : d.actions.filter (fun a => !(s.readOnly && !a.readOnly)) with
        | nil => exact absurd hl hne
        | cons x xs => rfl
      rw [if_pos hpos]
      dsimp only
      rw [List.map_cons, List.map_cons, hname, ih]

/-- C10: every one of the 15 groups of the shipped catalog has at least
one read-only action, so under both read-only modes registration
produces an entry for all 15 groups. -/
theorem catalog_all_groups_survive_readonly {Srv C E : Type}
    (hs : String → PortainerMCPServer Srv → ToolHandlerFunc C E) (core : Srv) :
    ((metaToolDefinitions hs).all (fun d => d.actions.any (fun a => a.readOnly))) = true
    ∧ (metaToolDefinitions hs).length = 15
    ∧ ∀ ro : Bool, (RegisterMetaTools { readOnly := ro, core := core } hs).length = 15 := by
  refine ⟨rfl, rfl, ?_⟩
  intro ro
  cases ro
  · rfl
  · rfl

end PortainerMCP
